import Mathlib

/-!
Verification of the GeminiImage chat plugin
(src/plugins/GeminiImg/gemini_image.py).

The development shallowly embeds the session / cache state machine of the
plugin: the conversation store, the last-artifact tracker, the image inbox
cache, the identity resolver, the generation gateway's response handling,
and the retention sweeps.  Python dicts become association lists, `bytes`
becomes an opaque `String`, timestamps become `Nat`, and external library
functions (base64 decoding, `json.dumps`, the platform `hash` builtin) are
taken as parameters.  Effectful code is embedded as explicit state-passing
functions whose HTTP outcome is an input value.
-/

set_option maxRecDepth 8000

namespace GeminiImage

/-- Opaque stand-in for Python `bytes`.  Python truthiness of a bytes value
(`if image_data:`) is emptiness of the string. -/
abbrev Bytes := String

/-- Python truthiness of an `Optional[str]`: `None` and `""` are falsy. -/
def optStrTruthy : Option String → Bool
  | some s => s != ""
  | none => false

/-- Python truthiness of an `Optional[bytes]`: `None` and `b""` are falsy. -/
def optBytesTruthy : Option Bytes → Bool
  | some b => b != ""
  | none => false

/-- Python `a if a else default` on an optional string. -/
def orDefault (t : Option String) (d : String) : String :=
  match t with
  | some s => if s = "" then d else s
  | none => d

/-! ### String helpers (kernel-reducible re-implementations of the Python
string operations used by the plugin) -/

/-- Substring test on character lists: Python `needle in hay`. -/
def charsContain (hay needle : List Char) : Bool :=
  match hay with
  | [] => needle.isEmpty
  | _ :: t => needle.isPrefixOf hay || charsContain t needle

/-- Python `needle in hay` for strings (substring containment). -/
def strContains (hay needle : String) : Bool :=
  charsContain hay.data needle.data

/-- Python `s.startswith(p)`. -/
def strStartsWith (s p : String) : Bool :=
  p.data.isPrefixOf s.data

/-- Python `s.endswith(p)`. -/
def strEndsWith (s p : String) : Bool :=
  p.data.reverse.isPrefixOf s.data.reverse

/-- Python `c in s` for a single character. -/
def strHasChar (s : String) (c : Char) : Bool :=
  s.data.contains c

/-- Helper for `pySplit`: walk the characters, accumulating the current word
(reversed); whitespace ends a word, empty words are dropped. -/
def splitWsAux : List Char → List Char → List String
  | [], acc => if acc.isEmpty then [] else [String.mk acc.reverse]
  | c :: rest, acc =>
    if c.isWhitespace then
      if acc.isEmpty then splitWsAux rest []
      else String.mk acc.reverse :: splitWsAux rest []
    else splitWsAux rest (c :: acc)

/-- Python `s.split()` with no arguments: split on runs of whitespace,
dropping empty words. -/
def pySplit (s : String) : List String :=
  splitWsAux s.data []

/-- Helper for `pySplitUnderscore`. -/
def splitUnderscoreAux : List Char → List Char → List String
  | [], acc => [String.mk acc.reverse]
  | c :: rest, acc =>
    if c = '_' then String.mk acc.reverse :: splitUnderscoreAux rest []
    else splitUnderscoreAux rest (c :: acc)

/-- Python `s.split('_')`. -/
def pySplitUnderscore (s : String) : List String :=
  splitUnderscoreAux s.data []

/-- Lookup in a Python dict modelled as an association list
(`d.get(k)`). -/
def dictGet (l : List (String × α)) (k : String) : Option α :=
  (l.find? (fun p => p.1 == k)).map (fun p => p.2)

/-! ### Conversation data model -/

/-- Turn role: `"user"` or `"model"`. -/
inductive Role
  | user
  | model
  deriving DecidableEq, Repr

/-- One element of a turn's `parts` list: `{"text": s}` or
`{"image_url": p}`. -/
inductive TurnPart
  | text (s : String)
  | image_url (p : String)
  deriving DecidableEq, Repr

/-- One conversation turn `{"role": ..., "parts": [...]}`. -/
structure Turn where
  role : Role
  parts : List TurnPart
  deriving DecidableEq, Repr

/-- A `self.last_images` value: the edit paths store a single path string,
the generate path stores a list of paths (gemini_image.py lines 287, 481,
604). -/
inductive LastImage
  | single (p : String)
  | multi (ps : List String)
  deriving DecidableEq, Repr

/-! ### Remote API response model (Generation Gateway) -/

/-- One part of the API response `content.parts`.  `text = some s` means the
JSON object has a `"text"` key with value `s`; `inlineData = some d` means it
has an `"inlineData"` key whose `"data"` field is `d` (inner `none`: the
`inlineData` value is falsy or lacks a `"data"` key). -/
structure RespPart where
  text : Option String
  inlineData : Option (Option String)
  deriving DecidableEq, Repr

/-- One entry of `result["candidates"]`; a missing `content`/`parts` is the
empty list (the code uses `.get(..., {})` / `.get(..., [])`). -/
structure Candidate where
  finishReason : Option String
  parts : List RespPart
  deriving DecidableEq, Repr

/-- The parsed 200-response JSON body. -/
structure GeminiBody where
  candidates : List Candidate
  deriving DecidableEq, Repr

/-- A transport-level failure of `requests.post`, carrying `str(e)`.  The
constructors match the four `except` clauses of `_generate_image` /
`_edit_image`. -/
inductive TransportErr
  | ssl (msg : String)
  | conn (msg : String)
  | timeout (msg : String)
  | other (msg : String)
  deriving DecidableEq, Repr

/-- Outcome of the HTTP call made by the gateway: a 200 response with parsed
JSON, a non-200 status, or a raised transport exception. -/
inductive ApiResult
  | ok (body : GeminiBody)
  | httpError (code : Nat) (text : String)
  | transport (e : TransportErr)
  deriving Repr

/-- External library functions used by the gateway, taken as parameters:
`base64.b64decode` and `json.dumps`. -/
structure Ext where
  b64decode : String → Bytes
  jsonDumps : GeminiBody → String

/-! ### Response parsing (gemini_image.py lines 1161-1178 / 1377-1394)

The loop appends, for a part with non-empty text, the text and a `None`
image placeholder; for a part with `inlineData` carrying `data`, the decoded
image and a `None` text placeholder; all other parts are skipped. -/

/-- The `elif "inlineData" in part` arm of the parse loop. -/
def parseInline (ext : Ext) (p : RespPart)
    (acc : List (Option String) × List (Option Bytes)) :
    List (Option String) × List (Option Bytes) :=
  match p.inlineData with
  | some (some d) => (none :: acc.1, some (ext.b64decode d) :: acc.2)
  | _ => acc

/-- Processing of a single response part, prepended to the lists built from
the later parts. -/
def parsePart (ext : Ext) (p : RespPart)
    (acc : List (Option String) × List (Option Bytes)) :
    List (Option String) × List (Option Bytes) :=
  match p.text with
  | some s => if s = "" then parseInline ext p acc else (some s :: acc.1, none :: acc.2)
  | none => parseInline ext p acc

/-- The parse loop: returns `(text_responses, image_datas)` in API part
order. -/
def parseParts (ext : Ext) : List RespPart → List (Option String) × List (Option Bytes)
  | [] => ([], [])
  | p :: rest => parsePart ext p (parseParts ext rest)

/-- Python padding `l + [None] * (n - len(l))`. -/
def padNone (l : List (Option α)) (n : Nat) : List (Option α) :=
  l ++ List.replicate (n - l.length) none

/-- Python `next((t for t in l if t), None)`: first truthy element. -/
def firstTruthy (l : List (Option String)) : Option String :=
  Option.join (l.find? optStrTruthy)

/-- First truthy image (`next((img for img in l if img), None)`). -/
def firstTruthyBytes (l : List (Option Bytes)) : Option Bytes :=
  Option.join (l.find? optBytesTruthy)

/-- The diagnostic text `_generate_image` builds in each `except` clause
(lines 1210-1225). -/
def generateTransportMsg : TransportErr → String
  | .ssl m => "图片生成失败: SSL连接错误，请检查网络或代理设置: " ++ m
  | .conn m => "图片生成失败: 连接错误，请检查网络或代理设置: " ++ m
  | .timeout m => "图片生成失败: API调用超时，请稍后再试: " ++ m
  | .other m => "图片生成失败: " ++ m

/-- The diagnostic text `_edit_image` builds in each `except` clause
(lines 1416-1431). -/
def editTransportMsg : TransportErr → String
  | .ssl m => "图片编辑失败: SSL连接错误，请检查网络或代理设置: " ++ m
  | .conn m => "图片编辑失败: 连接错误，请检查网络或代理设置: " ++ m
  | .timeout m => "图片编辑失败: API调用超时，请稍后再试: " ++ m
  | .other m => "图片编辑失败: " ++ m

/-- Embedding of `_generate_image` (lines 1135-1225) from the HTTP outcome on:
request construction (lines 1054-1134) only builds the outgoing payload and
is elided.  Returns `(image_datas, text_responses)` as the Python function
does.  Transport exceptions are caught and turned into a diagnostic text; a
non-200 status returns `([], [])`; a 200 response is parsed, the `None`
placeholders are filtered out of both lists (`[x for x in l if x]`), and the
shorter list is padded with trailing `None`s (lines 1190-1203). -/
def geminiGenerate (ext : Ext) (resp : ApiResult) :
    List (Option Bytes) × List (Option String) :=
  match resp with
  | .transport e => ([], [some (generateTransportMsg e)])
  | .httpError _ _ => ([], [])
  | .ok body =>
    match body.candidates with
    | [] => ([], [])
    | c :: _ =>
      let parsed := parseParts ext c.parts
      let texts := parsed.1
      let imgs := parsed.2
      if imgs.isEmpty || imgs.all Option.isNone then
        if (!texts.isEmpty) && texts.any Option.isSome then
          ([], texts.filter optStrTruthy)
        else ([], [])
      else
        let validImgs := imgs.filter optBytesTruthy
        let validTexts := texts.filter optStrTruthy
        let maxLen := max validImgs.length validTexts.length
        (padNone validImgs maxLen, padNone validTexts maxLen)

/-- Embedding of `_edit_image` (lines 1346-1431) from the HTTP outcome on
(request construction, lines 1239-1344, elided as for `geminiGenerate`).
Unlike generate, it checks `finishReason == "IMAGE_SAFETY"` (returning the
dumped response body as the text), and narrows to the first truthy image and
first truthy text. -/
def geminiEdit (ext : Ext) (resp : ApiResult) : Option Bytes × Option String :=
  match resp with
  | .transport e => (none, some (editTransportMsg e))
  | .httpError _ _ => (none, none)
  | .ok body =>
    match body.candidates with
    | [] => (none, none)
    | c :: _ =>
      if c.finishReason.getD "" = "IMAGE_SAFETY" then (none, some (ext.jsonDumps body))
      else
        let parsed := parseParts ext c.parts
        let texts := parsed.1
        let imgs := parsed.2
        if imgs.isEmpty || imgs.all Option.isNone then
          if (!texts.isEmpty) && texts.any Option.isSome then (none, firstTruthy texts)
          else (none, none)
        else (firstTruthyBytes imgs, firstTruthy texts)

/-! ### Per-key session state and the generate / edit handlers

`on_handle_context` touches `self.conversations`, `self.conversation_timestamps`
and `self.last_images` only at the current `conversation_key`; the handlers are
embedded as transition functions on that key's slice of the state.
`self.conversations` is a `defaultdict(list)`, so a missing key is the empty
history. -/

/-- The state the handlers read and write for one conversation key. -/
structure KeyState where
  history : List Turn
  timestamp : Option Nat
  lastImages : Option LastImage
  deriving DecidableEq, Repr

/-- Lines 293-295: `[{"role": "user", "parts": [{"text": prompt}]} for prompt
in prompt.split()]` — the comprehension variable shadows `prompt`, producing
one user turn per whitespace-separated word. -/
def mkUserMessages (prompt : String) : List Turn :=
  (pySplit prompt).map (fun w => { role := Role.user, parts := [TurnPart.text w] })

/-- Lines 298-311: one model turn per saved image path, pairing
`text_responses[i]` (if present and truthy, else the canned text) with the
path. -/
def mkAssistantMessages (imagePaths : List String) (texts : List (Option String)) :
    List Turn :=
  (List.range imagePaths.length).map (fun i =>
    { role := Role.model,
      parts := [TurnPart.text (orDefault (texts.getD i none) "我已生成了图片"),
                TurnPart.image_url (imagePaths.getD i "")] })

/-- Lines 273-281: one file is written per image datum that `is not None`;
`pathGen i` abstracts the `gemini_{time}_{uuid}_{clean_text}.png` name chosen
for the `i`-th entry of `image_datas`. -/
def savedPathsAux (pathGen : Nat → String) : Nat → List (Option Bytes) → List String
  | _, [] => []
  | i, none :: rest => savedPathsAux pathGen (i + 1) rest
  | i, some _ :: rest => pathGen i :: savedPathsAux pathGen (i + 1) rest

/-- The list `image_paths` built by the generate handler. -/
def savedPaths (images : List (Option Bytes)) (pathGen : Nat → String) : List String :=
  savedPathsAux pathGen 0 images

/-- The generate-command handler's effect on the key's session state
(lines 248-390), given the pair `_generate_image` returned.  On success the
stored history is the in-place `extend`ed list: the truncation at lines
313-315 (`conversation_history = conversation_history[-10:]`) rebinds the
local name only and is never written back to `self.conversations`, so it does
not appear here.  (Line 291's `last_images[key] = None` branch is
unreachable: it is guarded by `image_paths` being empty and non-empty at
once.) -/
def generateHandler (st : KeyState) (now : Nat) (prompt : String)
    (images : List (Option Bytes)) (texts : List (Option String))
    (pathGen : Nat → String) : KeyState :=
  if images.isEmpty then st
  else
    let imagePaths := savedPaths images pathGen
    if imagePaths.isEmpty then st
    else
      { history := st.history ++ mkUserMessages prompt ++ mkAssistantMessages imagePaths texts,
        timestamp := some now,
        lastImages := some (LastImage.multi imagePaths) }

/-- Lines 428-446: resolve the edit source from `self.last_images` — for a
list, the first path that exists on disk; the resulting path must be truthy
and exist. -/
def resolveLastImagePath (fileExists : String → Bool) (li : Option LastImage) :
    Option String :=
  let lp : Option String :=
    match li with
    | none => none
    | some (.single p) => some p
    | some (.multi ps) => if ps.isEmpty then none else ps.find? fileExists
  match lp with
  | some p => if (p != "") && fileExists p then some p else none
  | none => none

/-- Lines 485-492: the user turn appended by the edit handler. -/
def editUserTurn (prompt imagePath : String) : Turn :=
  { role := Role.user, parts := [TurnPart.text prompt, TurnPart.image_url imagePath] }

/-- Lines 495-502: the model turn appended by the edit handler. -/
def editModelTurn (t : Option String) (editedPath : String) : Turn :=
  { role := Role.model,
    parts := [TurnPart.text (orDefault t "我已编辑了图片"), TurnPart.image_url editedPath] }

/-- The edit-command handler's effect on the key's session state
(lines 410-549), given: the inbox-cache lookup result (`_get_recent_image`),
the disk state, the temp path the cached image is saved under, the pair
`_edit_image` returned, and the path the edited result is saved under.
Lines 417-424: a truthy cached image is saved and recorded in
`self.last_images` BEFORE the API call.  As in `generateHandler`, the
truncation at lines 504-506 rebinds a local name and never reaches the
stored list. -/
def editHandler (st : KeyState) (now : Nat) (prompt : String)
    (inbox : Option Bytes) (fileExists : String → Bool) (tempPath : String)
    (editResult : Option Bytes × Option String) (editedPath : String) : KeyState :=
  let cached := optBytesTruthy inbox
  let st1 := if cached then { st with lastImages := some (LastImage.single tempPath) } else st
  let srcPath : Option String :=
    if cached then some tempPath else resolveLastImagePath fileExists st.lastImages
  match srcPath with
  | none => st1
  | some imagePath =>
    if optBytesTruthy editResult.1 then
      { history := st1.history ++ [editUserTurn prompt imagePath, editModelTurn editResult.2 editedPath],
        timestamp := some now,
        lastImages := some (LastImage.single editedPath) }
    else st1

/-- One successful edit command (inbox hit, API returns an image), used to
iterate the handler. -/
def editSuccessStep (st : KeyState) : KeyState :=
  editHandler st 0 "p" (some "IMG") (fun _ => true) "temp.png" (some "EDITED", some "ok") "edited.png"

/-- The stored per-key state after `n` successful edit commands starting from
an empty session. -/
def storedStateAfter : Nat → KeyState
  | 0 => { history := [], timestamp := none, lastImages := none }
  | n + 1 => editSuccessStep (storedStateAfter n)

/-! ### The three shared maps and the conversation expiry sweep -/

/-- The three shared maps (`self.conversations`, `self.conversation_timestamps`,
`self.last_images`) as association lists. -/
structure Store where
  conversations : List (String × List Turn)
  conversation_timestamps : List (String × Nat)
  last_images : List (String × LastImage)
  deriving DecidableEq, Repr

/-- Value of `self.conversation_expiry` (line 93). -/
def conversationExpiry : Nat := 600

/-- Value of `self.image_cache_timeout` (line 101). -/
def imageCacheTimeout : Nat := 300

/-- Embedding of `_cleanup_expired_conversations` (lines 979-994): collect the keys whose
timestamp age strictly exceeds 600s, then delete each from all three maps. -/
def cleanupExpiredConversations (now : Nat) (st : Store) : Store :=
  let expired := (st.conversation_timestamps.filter
    (fun p => decide (now - p.2 > conversationExpiry))).map (fun p => p.1)
  { conversations := st.conversations.filter (fun p => !(expired.contains p.1)),
    conversation_timestamps :=
      st.conversation_timestamps.filter (fun p => !(expired.contains p.1)),
    last_images := st.last_images.filter (fun p => !(expired.contains p.1)) }

/-- Assignment `self.conversation_timestamps[key] = time.time()` (lines 318, 509,
632). -/
def touchTimestamp (st : Store) (k : String) (now : Nat) : Store :=
  { st with conversation_timestamps :=
      if st.conversation_timestamps.any (fun p => p.1 == k) then
        st.conversation_timestamps.map (fun p => if p.1 == k then (k, now) else p)
      else st.conversation_timestamps ++ [(k, now)] }

/-! ### Image inbox cache -/

/-- A cached `content` value: `_handle_image_message` stores a list of byte
buffers; older entries may hold a single bytes value (both branches appear in
`_get_recent_image`). -/
inductive ImageContent
  | blist (l : List Bytes)
  | bbytes (b : Bytes)
  deriving DecidableEq, Repr

/-- One `self.image_cache` entry: `{"content": ..., "timestamp": ...}`. -/
structure CacheEntry where
  content : ImageContent
  timestamp : Nat
  deriving DecidableEq, Repr

/-- The `isinstance` ladder of `_get_recent_image` (lines 877-886): first
element of a non-empty list, a bare bytes value as-is, anything else
`None`. -/
def contentFirst : ImageContent → Option Bytes
  | .blist (b :: _) => some b
  | .blist [] => none
  | .bbytes b => some b

/-- Line 875 freshness test: `time.time() - timestamp <= 300`. -/
def freshAt (now : Nat) (e : CacheEntry) : Bool :=
  decide (now - e.timestamp ≤ imageCacheTimeout)

/-- Lines 928-943: scan all cache keys for one with the conversation key as
prefix-with-separator or suffix-with-separator; the first fresh match returns
its content (`some r`), falling through otherwise (`none`). -/
def cacheScanResult (now : Nat) (cache : List (String × CacheEntry)) (k : String) :
    Option (Option Bytes) :=
  (cache.find? (fun p =>
      (strStartsWith p.1 (k ++ "_") || strEndsWith p.1 ("_" ++ k)) && freshAt now p.2)).map
    (fun p => contentFirst p.2.content)

/-- Lines 945-962: if the key is compound, try each `'_'`-separated piece as
a cache key; the first fresh hit returns its content. -/
def cacheSplitResult (now : Nat) (cache : List (String × CacheEntry)) (k : String) :
    Option Bytes :=
  if strHasChar k '_' then
    Option.join ((pySplitUnderscore k).findSome? (fun part =>
      match dictGet cache part with
      | some e => if freshAt now e then some (contentFirst e.content) else none
      | none => none))
  else none

/-- Embedding of `_get_recent_image` (lines 864-964).  The group-context branch at lines
888-926 never executes: `'e_context' in locals()` is always false inside this
function and `self.current_context` is never assigned, so `context` is always
`None`; the branch is therefore absent from the embedding. -/
def getRecentImage (now : Nat) (cache : List (String × CacheEntry)) (k : String) :
    Option Bytes :=
  let direct : Option (Option Bytes) :=
    match dictGet cache k with
    | some e => if freshAt now e then some (contentFirst e.content) else none
    | none => none
  match direct with
  | some r => r
  | none =>
    match cacheScanResult now cache k with
    | some r => r
    | none => cacheSplitResult now cache k

/-- Embedding of `_cleanup_image_cache` (lines 966-977): drop entries strictly older than
the 300s timeout. -/
def cleanupImageCache (now : Nat) (cache : List (String × CacheEntry)) :
    List (String × CacheEntry) :=
  cache.filter (fun p => !(decide (now - p.2.timestamp > imageCacheTimeout)))

/-! ### Identity resolver (`_handle_image_message`, lines 686-731) -/

/-- The candidate identity fields of the platform message object.  `some s`
means the attribute exists with value `s`; Python additionally requires each
candidate to be truthy, which `truthyField` applies at each read. -/
structure Msg where
  actual_user_id : Option String
  from_user_id : Option String
  sender_id : Option String
  sender_wxid : Option String
  self_display_name : Option String
  deriving DecidableEq, Repr

/-- Python `hasattr(msg, a) and msg.a`: a present but empty field is skipped. -/
def truthyField (o : Option String) : Option String :=
  match o with
  | some s => if s = "" then none else some s
  | none => none

/-- Lines 687-723: resolve the sender id.  Priority: `actual_user_id`, then
`from_user_id`; in group scope a candidate equal to the chat/group id
(`session_id`) triggers the fallback ladder `sender_id`, `sender_wxid`,
`self_display_name` — but if all three are absent the candidate equal to the
group id is KEPT.  Only a missing/falsy result reaches the hashed fallback
`user_{hash(session_id) % 10000}`; `hashMod` abstracts the platform `hash`
builtin composed with `% 10000`. -/
def resolveSenderId (hashMod : String → Nat) (isGroup : Bool) (sessionId : String)
    (msg : Option Msg) : String :=
  let sid0 : Option String :=
    match msg with
    | none => none
    | some m =>
      match truthyField m.actual_user_id with
      | some s => some s
      | none => truthyField m.from_user_id
  let sid1 : Option String :=
    match msg with
    | none => sid0
    | some m =>
      if isGroup && (sid0 == some sessionId) then
        match truthyField m.sender_id with
        | some s => some s
        | none =>
          match truthyField m.sender_wxid with
          | some s => some s
          | none =>
            match truthyField m.self_display_name with
            | some s => some s
            | none => sid0
      else sid0
  match sid1 with
  | some s => s
  | none => "user_" ++ toString (hashMod sessionId)

/-- Lines 725-731: `{session_id}_{sender_id}` in group scope, the sender id
alone in direct scope. -/
def resolveCacheKey (hashMod : String → Nat) (isGroup : Bool) (sessionId : String)
    (msg : Option Msg) : String :=
  let sender := resolveSenderId hashMod isGroup sessionId msg
  if isGroup then sessionId ++ "_" ++ sender else sender

/-! ### Retention sweeper (`_cleanup_temp_files`, lines 996-1045) -/

/-- One file of the artifact storage directory listing. -/
structure TempFile where
  name : String
  mtime : Nat
  isDir : Bool
  deriving DecidableEq, Repr

/-- Line 1019: only files named by the plugin are considered. -/
def pluginFileName (name : String) : Bool :=
  strStartsWith name "gemini_" || strStartsWith name "edited_" || strStartsWith name "temp_"

/-- Line 1030's `file_path in last_image`: Python `in` is substring
containment when the stored value is a single path string, and list
membership when it is a list of paths. -/
def pyIn (x : String) : LastImage → Bool
  | .single s => strContains s x
  | .multi ps => ps.contains x

/-- What the spec means by a referenced file: the path IS one of the paths of
some key's last-artifact entry.  (Spec-side definition, used to state the
retention claim; the code's test is `pyIn`.) -/
def referencedBy (path : String) (lastImages : List (String × LastImage)) : Bool :=
  lastImages.any (fun kv =>
    match kv.2 with
    | .single s => path == s
    | .multi ps => ps.contains path)

/-- Embedding of `_cleanup_temp_files` (lines 996-1045): returns the list of deleted
paths.  A non-directory plugin-named file strictly older than
`maxAgeHours * 3600` is deleted unless `file_path in last_image` holds for
some `last_images` value.  (The Python default for `maxAgeHours` is 24.) -/
def cleanupTempFiles (saveDir : String) (now : Nat) (files : List TempFile)
    (lastImages : List (String × LastImage)) (maxAgeHours : Nat) : List String :=
  files.foldl (fun acc f =>
    if f.isDir then acc
    else if !(pluginFileName f.name) then acc
    else
      let path := saveDir ++ "/" ++ f.name
      if decide (now - f.mtime > maxAgeHours * 3600) then
        if lastImages.any (fun kv => pyIn path kv.2) then acc
        else acc ++ [path]
      else acc) []

/-! ### Concrete instances used by the counterexamples and witnesses -/

/-- A concrete external-function bundle for closed evaluations. -/
def extId : Ext :=
  { b64decode := fun s => s, jsonDumps := fun _ => "dump" }

/-- The synthetic response parts `[text:"A", image:X, text:"B"]`. -/
def c2parts : List RespPart :=
  [{ text := some "A", inlineData := none },
   { text := none, inlineData := some (some "X") },
   { text := some "B", inlineData := none }]

/-- A 200 response carrying `c2parts`. -/
def c2resp : ApiResult :=
  ApiResult.ok { candidates := [{ finishReason := none, parts := c2parts }] }

/-- A session whose last artifact is `old.png`. -/
def c3st : KeyState :=
  { history := [], timestamp := none, lastImages := some (LastImage.single "old.png") }

/-- A single-key store touched at time 0. -/
def c6store : Store :=
  { conversations := [("k", [])],
    conversation_timestamps := [("k", 0)],
    last_images := [("k", LastImage.single "a.png")] }

/-- A group-scope message whose only candidate equals the group id. -/
def msgG : Msg :=
  { actual_user_id := some "G", from_user_id := none, sender_id := none,
    sender_wxid := none, self_display_name := none }

/-- A single old plugin file. -/
def c8files : List TempFile :=
  [{ name := "temp_1.png", mtime := 0, isDir := false }]

/-- A last-artifact map whose single entry strictly contains the old file's
path as a substring without being equal to it. -/
def c8last : List (String × LastImage) :=
  [("k", LastImage.single "d/temp_1.pngX")]

/-! ## Auxiliary lemmas -/

/-- A character list is a prefix of itself. -/
theorem isPrefixOf_self (l : List Char) : l.isPrefixOf l = true := by
  induction l with
  | nil => rfl
  | cons c t ih => simp [List.isPrefixOf, ih]

/-- Every character list contains itself as a substring. -/
theorem charsContain_self (l : List Char) : charsContain l l = true := by
  cases l with
  | nil => rfl
  | cons c t => simp [charsContain, isPrefixOf_self]

/-- Every string contains itself as a substring. -/
theorem strContains_self (s : String) : strContains s s = true :=
  charsContain_self s.data

/-- Appending to a non-empty string yields a non-empty string. -/
theorem append_ne_empty (p m : String) (h : p.length ≠ 0) : p ++ m ≠ "" := by
  intro he
  have h2 := congrArg String.length he
  rw [String.length_append] at h2
  have h3 : ("" : String).length = 0 := rfl
  rw [h3] at h2
  omega

/-- A file exactly referenced by some last-artifact value also passes the
code's Python `in` test. -/
theorem any_pyIn_of_referenced (path : String) (l : List (String × LastImage))
    (h : referencedBy path l = true) :
    l.any (fun kv => pyIn path kv.2) = true := by
  rcases List.any_eq_true.mp h with ⟨kv, hmem, hkv⟩
  refine List.any_eq_true.mpr ⟨kv, hmem, ?_⟩
  rcases kv with ⟨key, li⟩
  cases li with
  | single s =>
    have hpeq : path = s := by simpa using hkv
    simp only [pyIn, ← hpeq]
    exact strContains_self _
  | multi ps => simpa [pyIn] using hkv

/-! ## Claim theorems -/

/-- C1 (code bug): the spec caps stored conversation history at 10 turns with
FIFO truncation, and the code's own comment (`# 限制会话历史长度`) shows the
same intent, but `conversation_history = conversation_history[-10:]`
(lines 313-315, 504-506, 627-629) rebinds a local name and is never written
back to `self.conversations`, while `append`/`extend` mutate the stored list
in place.  After six successful edit commands the stored history holds 12
turns, exceeding the claimed cap of 10. -/
theorem C1_stored_history_exceeds_cap :
    (storedStateAfter 6).history.length = 12 ∧
    10 < (storedStateAfter 6).history.length := by
  constructor <;> decide

/-- C2 counterexample: for a response with parts `[text "A", image X,
text "B"]`, `_generate_image` returns `([X, None], ["A", "B"])`, not the
index-aligned `([None, X, None], ["A", None, "B"])` the claim states: the
filtering at lines 1191-1192 compacts out the `None` placeholders before the
tail padding of lines 1197-1201. -/
theorem C2_counterexample :
    geminiGenerate extId c2resp = ([some "X", none], [some "A", some "B"]) ∧
    geminiGenerate extId c2resp ≠ ([none, some "X", none], [some "A", none, some "B"]) := by
  constructor <;> decide

/-- Auxiliary: the relation between a text slot and an image slot produced by
the parse loop — exactly one side is present. -/
def slotAligned (t : Option String) (im : Option Bytes) : Prop :=
  (t.isSome ∧ im = none) ∨ (t = none ∧ im.isSome)

/-- Auxiliary: one parse-loop step preserves slot alignment. -/
theorem parsePart_aligned (ext : Ext) (p : RespPart)
    (acc : List (Option String) × List (Option Bytes))
    (ih : List.Forall₂ slotAligned acc.1 acc.2) :
    List.Forall₂ slotAligned (parsePart ext p acc).1 (parsePart ext p acc).2 := by
  rcases p with ⟨pt, pd⟩
  cases pt with
  | none =>
    cases pd with
    | none => exact ih
    | some d =>
      cases d with
      | none => exact ih
      | some s =>
        exact List.Forall₂.cons (Or.inr ⟨rfl, rfl⟩) ih
  | some s =>
    by_cases hs : s = ""
    · subst hs
      cases pd with
      | none => simpa [parsePart, parseInline] using ih
      | some d =>
        cases d with
        | none => simpa [parsePart, parseInline] using ih
        | some s2 =>
          simp only [parsePart, parseInline, if_pos rfl]
          exact List.Forall₂.cons (Or.inr ⟨rfl, rfl⟩) ih
    · simp only [parsePart, if_neg hs]
      exact List.Forall₂.cons (Or.inl ⟨rfl, rfl⟩) ih

/-- C2 (amended): the parse loop does build index-aligned parallel lists — at
each position exactly one of text/image is present — but `_generate_image`
then filters the `None` placeholders out of both lists and pads only at the
tail, so the returned lists are compacted: for parts `[text "A", image X,
text "B"]` the result is `images = [X, None]`, `texts = ["A", "B"]`. -/
theorem C2_parse_aligned_then_compacted :
    (∀ (ext : Ext) (ps : List RespPart),
        List.Forall₂ slotAligned (parseParts ext ps).1 (parseParts ext ps).2) ∧
    geminiGenerate extId c2resp = ([some "X", none], [some "A", some "B"]) := by
  constructor
  · intro ext ps
    induction ps with
    | nil => exact List.Forall₂.nil
    | cons p rest ih => exact parsePart_aligned ext p _ ih
  · decide

/-- C3 counterexample: an edit whose source image comes from the Image Inbox
Cache overwrites the key's last-artifact entry with the freshly saved copy
BEFORE the API call (lines 417-424); a transport timeout inside `_edit_image`
leaves that overwrite in place, so the session state observable afterwards
differs from the state before the call. -/
theorem C3_counterexample :
    (editHandler c3st 5 "p" (some "IMG") (fun _ => false) "temp.png"
        (geminiEdit extId (ApiResult.transport (TransportErr.timeout "t"))) "edited.png").lastImages
      = some (LastImage.single "temp.png") ∧
    (editHandler c3st 5 "p" (some "IMG") (fun _ => false) "temp.png"
        (geminiEdit extId (ApiResult.transport (TransportErr.timeout "t"))) "edited.png").lastImages
      ≠ c3st.lastImages := by
  constructor <;> decide

/-- C3 (amended): on a transport failure, a generate call leaves the key's
session state entirely unchanged, and an edit call appends no turn and does
not update the activity timestamp; the last-artifact entry is unchanged
except when the edit's source image came from the Image Inbox Cache, in which
case it was already overwritten with the saved inbox copy before the API
call and the overwrite persists. -/
theorem C3_transport_failure_session_state (st : KeyState) (now : Nat) (prompt : String)
    (ext : Ext) (e : TransportErr) (inbox : Option Bytes) (fileExists : String → Bool)
    (tempPath editedPath : String) (pathGen : Nat → String) :
    generateHandler st now prompt (geminiGenerate ext (ApiResult.transport e)).1
        (geminiGenerate ext (ApiResult.transport e)).2 pathGen = st ∧
    editHandler st now prompt inbox fileExists tempPath
        (geminiEdit ext (ApiResult.transport e)) editedPath
      = (if optBytesTruthy inbox then { st with lastImages := some (LastImage.single tempPath) }
         else st) := by
  constructor
  · rfl
  · have hge : geminiEdit ext (ApiResult.transport e) = (none, some (editTransportMsg e)) := rfl
    have h0 : optBytesTruthy (none : Option Bytes) = false := rfl
    rw [hge]
    cases h : optBytesTruthy inbox with
    | true => simp [editHandler, h, h0]
    | false =>
      cases hr : resolveLastImagePath fileExists st.lastImages with
      | none => simp [editHandler, h, hr, h0]
      | some p => simp [editHandler, h, hr, h0]

/-- C4: a transport failure (timeout, TLS, or connection error) inside
`_generate_image` or `_edit_image` is caught — the embedding is a total
function of the HTTP outcome — and yields an empty/None image result paired
with a non-empty diagnostic error text. -/
theorem C4_transport_failure_diagnostic (ext : Ext) (e : TransportErr) :
    geminiGenerate ext (ApiResult.transport e) = ([], [some (generateTransportMsg e)]) ∧
    generateTransportMsg e ≠ "" ∧
    geminiEdit ext (ApiResult.transport e) = (none, some (editTransportMsg e)) ∧
    editTransportMsg e ≠ "" := by
  refine ⟨rfl, ?_, rfl, ?_⟩ <;>
    cases e <;> exact append_ne_empty _ _ (by decide)

/-- C5 counterexample: an Image Inbox Cache entry written at time 0 is still
returned by a get at exactly time 300 (= T + TTL), because line 875 tests
`time.time() - timestamp <= 300`; the claim states it must be absent at
exactly T+300. -/
theorem C5_counterexample :
    getRecentImage 300 [("k", { content := ImageContent.blist ["img"], timestamp := 0 })] "k"
      = some "img" := by
  decide

/-- C5 (amended): an entry written at time T is retrievable at all times up
to AND INCLUDING T+300 and absent strictly after T+300 (the boundary is
inclusive, not exclusive as claimed); the cache sweep likewise removes only
entries strictly older than the TTL. -/
theorem C5_ttl_boundary_inclusive (T now : Nat) (b : Bytes) (rest : List Bytes) :
    getRecentImage now [("k", { content := ImageContent.blist (b :: rest), timestamp := T })] "k"
      = (if now - T ≤ imageCacheTimeout then some b else none) ∧
    cleanupImageCache now [("k", { content := ImageContent.blist (b :: rest), timestamp := T })]
      = (if now - T ≤ imageCacheTimeout then
          [("k", { content := ImageContent.blist (b :: rest), timestamp := T })]
         else []) := by
  have hs : strStartsWith "k" "k_" = false := by decide
  have he : strEndsWith "k" "_k" = false := by decide
  have hc : strHasChar "k" '_' = false := by decide
  constructor
  · by_cases h : now - T ≤ imageCacheTimeout
    · simp [getRecentImage, dictGet, freshAt, h, contentFirst]
    · have h2 : ¬ now ≤ imageCacheTimeout + T := by
        have h3 : imageCacheTimeout = 300 := rfl
        omega
      simp [getRecentImage, dictGet, freshAt, h, h2, cacheScanResult, cacheSplitResult,
        hs, he, hc, contentFirst]
  · by_cases h : now - T ≤ imageCacheTimeout
    · have h2 : ¬ (now - T > imageCacheTimeout) := by omega
      simp [cleanupImageCache, h, h2]
    · have h2 : now - T > imageCacheTimeout := by omega
      simp [cleanupImageCache, h, h2]

/-- C6 counterexample: a conversation key touched at time 0 is NOT removed by
a sweep at exactly time 600 (= T + 600), because line 985 tests
`current_time - timestamp > 600` strictly; the claim states removal at
T+600. -/
theorem C6_counterexample :
    cleanupExpiredConversations 600 c6store = c6store := by
  decide

/-- C6 (amended): a key whose activity timestamp is T is removed by any sweep
run STRICTLY after T+600 — a sweep at exactly T+600 leaves it — and the
removal deletes history, activity record, and last-artifact entry together;
a touch at T+300 moves the threshold to T+900 (kept through T+900, removed
strictly after). -/
theorem C6_expiry_strictly_after_deadline (T now : Nat) (hist : List Turn) (li : LastImage) :
    cleanupExpiredConversations now
        { conversations := [("k", hist)], conversation_timestamps := [("k", T)],
          last_images := [("k", li)] }
      = (if T + 600 < now then
          { conversations := [], conversation_timestamps := [], last_images := [] }
         else
          { conversations := [("k", hist)], conversation_timestamps := [("k", T)],
            last_images := [("k", li)] }) ∧
    cleanupExpiredConversations now
        (touchTimestamp
          { conversations := [("k", hist)], conversation_timestamps := [("k", T)],
            last_images := [("k", li)] } "k" (T + 300))
      = (if T + 900 < now then
          { conversations := [], conversation_timestamps := [], last_images := [] }
         else
          { conversations := [("k", hist)], conversation_timestamps := [("k", T + 300)],
            last_images := [("k", li)] }) := by
  constructor
  · by_cases h : conversationExpiry < now - T
    · have h2 : T + 600 < now := by
        have : conversationExpiry = 600 := rfl
        omega
      simp [cleanupExpiredConversations, h, h2]
    · have h2 : ¬ (T + 600 < now) := by
        have : conversationExpiry = 600 := rfl
        omega
      simp [cleanupExpiredConversations, h, h2]
  · by_cases h : conversationExpiry < now - (T + 300)
    · have h2 : T + 900 < now := by
        have : conversationExpiry = 600 := rfl
        omega
      simp [cleanupExpiredConversations, touchTimestamp, h, h2]
    · have h2 : ¬ (T + 900 < now) := by
        have : conversationExpiry = 600 := rfl
        omega
      simp [cleanupExpiredConversations, touchTimestamp, h, h2]

/-- C7 counterexample: in group scope with session id "G", a message whose
only candidate is `actual_user_id = "G"` (the platform quirk) and which lacks
`sender_id`, `sender_wxid` and `self_display_name` resolves to sender "G" and
cache key "G_G" — the group id IS used as the sender component, contradicting
the claim that a lower-priority candidate is always used instead. -/
theorem C7_counterexample :
    resolveSenderId (fun _ => 0) true "G" (some msgG) = "G" ∧
    resolveCacheKey (fun _ => 0) true "G" (some msgG) = "G" ++ "_" ++ "G" := by
  constructor <;> decide

/-- C7 (amended): in group scope, when the top-priority candidate equals the
group id, the resolver uses the first available lower-priority candidate
(`sender_id`, then `sender_wxid`, then `self_display_name`); but when none of
those fields is present, the group id itself is kept as the sender component
(the hashed fallback fires only when no candidate at all was found). -/
theorem C7_group_quirk_lower_candidate_or_group_id (hashMod : String → Nat)
    (sess c : String) (hsess : sess ≠ "") (hc : c ≠ "") :
    resolveSenderId hashMod true sess
        (some { actual_user_id := some sess, from_user_id := none, sender_id := some c,
                sender_wxid := none, self_display_name := none }) = c ∧
    resolveCacheKey hashMod true sess
        (some { actual_user_id := some sess, from_user_id := none, sender_id := some c,
                sender_wxid := none, self_display_name := none }) = sess ++ "_" ++ c ∧
    resolveSenderId hashMod true sess
        (some { actual_user_id := some sess, from_user_id := none, sender_id := none,
                sender_wxid := none, self_display_name := none }) = sess := by
  refine ⟨?_, ?_, ?_⟩ <;>
    simp [resolveSenderId, resolveCacheKey, truthyField, hsess, hc]

/-- C7 witness: the amended resolver behaviour at session id "G" with lower
candidate "u". -/
theorem C7_group_quirk_witness :
    resolveSenderId (fun _ => 0) true "G"
        (some { actual_user_id := some "G", from_user_id := none, sender_id := some "u",
                sender_wxid := none, self_display_name := none }) = "u" ∧
    resolveCacheKey (fun _ => 0) true "G"
        (some { actual_user_id := some "G", from_user_id := none, sender_id := some "u",
                sender_wxid := none, self_display_name := none }) = "G" ++ "_" ++ "u" ∧
    resolveSenderId (fun _ => 0) true "G"
        (some { actual_user_id := some "G", from_user_id := none, sender_id := none,
                sender_wxid := none, self_display_name := none }) = "G" :=
  C7_group_quirk_lower_candidate_or_group_id (fun _ => 0) "G" "u" (by decide) (by decide)

/-- C8 counterexample: the file `d/temp_1.png`, old enough to delete and NOT
referenced by any last-artifact entry (no entry equals its path), survives
the sweep because Python's `file_path in last_image` is a substring test for
a string-valued entry, and `d/temp_1.pngX` contains `d/temp_1.png` — refuting
the claimed "deleted iff not referenced". -/
theorem C8_counterexample :
    referencedBy "d/temp_1.png" c8last = false ∧
    (100000 : Nat) - 0 > 24 * 3600 ∧
    cleanupTempFiles "d" 100000 c8files c8last 24 = [] := by
  refine ⟨?_, ?_, ?_⟩ <;> decide

/-- C8 (amended): among plugin-named, non-directory files older than the
max-age threshold, a file is deleted iff Python's `in` test fails against
every last-artifact value — list membership for list entries, SUBSTRING
containment for single-path entries; in particular, a genuinely referenced
file (its path equal to a stored path) always survives the sweep. -/
theorem C8_old_file_retention (saveDir : String) (now : Nat) (f : TempFile)
    (lastImages : List (String × LastImage)) (maxAgeHours : Nat)
    (hdir : f.isDir = false) (hname : pluginFileName f.name = true)
    (hold : now - f.mtime > maxAgeHours * 3600) :
    (cleanupTempFiles saveDir now [f] lastImages maxAgeHours
        = if lastImages.any (fun kv => pyIn (saveDir ++ "/" ++ f.name) kv.2) then []
          else [saveDir ++ "/" ++ f.name]) ∧
    (referencedBy (saveDir ++ "/" ++ f.name) lastImages = true →
      cleanupTempFiles saveDir now [f] lastImages maxAgeHours = []) := by
  have hmain : cleanupTempFiles saveDir now [f] lastImages maxAgeHours
      = if lastImages.any (fun kv => pyIn (saveDir ++ "/" ++ f.name) kv.2) then []
        else [saveDir ++ "/" ++ f.name] := by
    simp [cleanupTempFiles, hdir, hname, hold]
  refine ⟨hmain, fun href => ?_⟩
  rw [hmain]
  simp [any_pyIn_of_referenced _ _ href]

/-- C8 witness: a concretely old, exactly-referenced plugin file survives the
sweep, and the deleted-iff condition evaluates as stated. -/
theorem C8_old_file_retention_witness :
    (cleanupTempFiles "d" 100000 [{ name := "gemini_1.png", mtime := 0, isDir := false }]
        [("k", LastImage.multi ["d/gemini_1.png"])] 24
      = if [("k", LastImage.multi ["d/gemini_1.png"])].any
            (fun kv => pyIn ("d" ++ "/" ++ "gemini_1.png") kv.2) then []
        else ["d" ++ "/" ++ "gemini_1.png"]) ∧
    (referencedBy ("d" ++ "/" ++ "gemini_1.png") [("k", LastImage.multi ["d/gemini_1.png"])] = true →
      cleanupTempFiles "d" 100000 [{ name := "gemini_1.png", mtime := 0, isDir := false }]
        [("k", LastImage.multi ["d/gemini_1.png"])] 24 = []) :=
  C8_old_file_retention "d" 100000 { name := "gemini_1.png", mtime := 0, isDir := false }
    [("k", LastImage.multi ["d/gemini_1.png"])] 24 rfl (by decide) (by decide)

/-- C9: a non-200 HTTP status makes `_generate_image` return `([], [])` and
`_edit_image` return `(None, None)` — no diagnostic text — exactly the same
values as a 200 response with no candidates, so the caller cannot tell the
two apart. -/
theorem C9_non200_silent_empty (ext : Ext) (code : Nat) (errText : String) :
    geminiGenerate ext (ApiResult.httpError code errText) = ([], []) ∧
    geminiEdit ext (ApiResult.httpError code errText) = (none, none) ∧
    geminiGenerate ext (ApiResult.httpError code errText)
      = geminiGenerate ext (ApiResult.ok { candidates := [] }) ∧
    geminiEdit ext (ApiResult.httpError code errText)
      = geminiEdit ext (ApiResult.ok { candidates := [] }) :=
  ⟨rfl, rfl, rfl, rfl⟩

/-- C10: on a successful generate (the returned image list is non-empty, so
its head is a saved image), the user side of the turns appended to the stored
history is exactly one user turn per whitespace-separated word of the prompt,
each holding that single word as its only part — `[... for prompt in
prompt.split()]` at line 294 shadows `prompt`; a one-word prompt like "cat"
yields exactly one user turn. -/
theorem C10_one_user_turn_per_prompt_word (st : KeyState) (now : Nat) (prompt : String)
    (b : Bytes) (images : List (Option Bytes)) (texts : List (Option String))
    (pathGen : Nat → String) :
    ((generateHandler st now prompt (some b :: images) texts pathGen).history.drop
        st.history.length).filter (fun t => t.role == Role.user)
      = mkUserMessages prompt ∧
    mkUserMessages prompt
      = (pySplit prompt).map (fun w => { role := Role.user, parts := [TurnPart.text w] }) ∧
    mkUserMessages "cat" = [{ role := Role.user, parts := [TurnPart.text "cat"] }] ∧
    mkUserMessages "red cat"
      = [{ role := Role.user, parts := [TurnPart.text "red"] },
         { role := Role.user, parts := [TurnPart.text "cat"] }] := by
  refine ⟨?_, rfl, by decide, by decide⟩
  have hstep : generateHandler st now prompt (some b :: images) texts pathGen
      = { history := st.history ++ mkUserMessages prompt
            ++ mkAssistantMessages (savedPaths (some b :: images) pathGen) texts,
          timestamp := some now,
          lastImages := some (LastImage.multi (savedPaths (some b :: images) pathGen)) } := by
    simp [generateHandler, savedPaths, savedPathsAux]
  rw [hstep]
  simp only [List.append_assoc, List.drop_left, List.filter_append]
  have hu : (mkUserMessages prompt).filter (fun t => t.role == Role.user)
      = mkUserMessages prompt := by
    refine List.filter_eq_self.mpr ?_
    intro t ht
    rcases List.mem_map.mp ht with ⟨w, _, rfl⟩
    rfl
  have ha : (mkAssistantMessages (savedPaths (some b :: images) pathGen) texts).filter
      (fun t => t.role == Role.user) = [] := by
    refine List.filter_eq_nil_iff.mpr ?_
    intro t ht
    rcases List.mem_map.mp ht with ⟨i, _, rfl⟩
    simp [beq_iff_eq]
  rw [hu, ha, List.append_nil]

end GeminiImage
